import Mathlib

/-!
Verification of the record_matcher / tabular_matcher repository.

The Python sources are shallowly embedded below:

* `records.py`  (identical in `record_matcher/` and `tabular_matcher/`):
  `column_names`, `uniqueness_by_column`, `group_by`.
* `tabular_matcher/matcher.py`: `column_match`, `records_match`,
  `TabularMatcher.__init__` defaults, and `TabularMatcher.match`
  (pass 1 annotation, pass 2 duplicate resolution).
* `record_matcher/config.py`: `ColumnsToGet.__setitem__` and the
  `MatcherConfig.x_records` / `y_records` setters.

Modelling conventions:

* Python scores are floats; every score produced in the claims is an exact
  rational, so scores are modelled by `Q`, an unreduced fraction of `Int`s.
  Comparisons on `Q` (`qBeq`, `qLeb`, `qLtb`) compare the represented
  rational value by cross multiplication, exactly as float comparison
  compares values, not representations. All denominators built by the
  embedding from well-formed inputs are positive.
* A Python `dict` is an insertion-ordered association list; assignment
  overwrites in place or appends (`recSet`, `dictSetS`, `accAdd`).
* A fallible Python expression (subscripting a key that may be absent)
  is modelled with `Option`/`Except`; `none`/`.error` is an uncaught
  `KeyError`.
* `TabularMatcher.match` copies the outer X dict but shares the inner row
  dicts (`dict.copy()` is shallow).  The embedding therefore keeps the X
  rows in a `Heap` keyed by row id: a heap entry is the state of the
  caller's original row object, and the annotated output is the view of
  the same heap, which is how the aliasing of the shallow copy behaves.
  The embedding assumes distinct row objects per row id, which holds for
  any normally constructed table.
-/

/-- Unreduced rational number: a pair of integers understood as num/den.
Used to model the Python floats appearing in the matcher, whose values in
all relevant computations are exact rationals. -/
structure Q where
  num : Int
  den : Int
deriving DecidableEq, Repr

/-- Value-level equality of two fractions (cross multiplication). -/
def qBeq (a b : Q) : Bool := a.num * b.den == b.num * a.den

/-- Value-level `≤` on fractions; meaningful when denominators are positive,
which holds for every value the embedding constructs. -/
def qLeb (a b : Q) : Bool := decide (a.num * b.den ≤ b.num * a.den)

/-- Value-level `<` on fractions (denominators positive). -/
def qLtb (a b : Q) : Bool := decide (a.num * b.den < b.num * a.den)

/-- Addition of fractions. -/
def qAdd (a b : Q) : Q := ⟨a.num * b.den + b.num * a.den, a.den * b.den⟩

/-- Subtraction of fractions. -/
def qSub (a b : Q) : Q := ⟨a.num * b.den - b.num * a.den, a.den * b.den⟩

/-- Multiplication of fractions. -/
def qMul (a b : Q) : Q := ⟨a.num * b.num, a.den * b.den⟩

/-- Division of fractions. -/
def qDiv (a b : Q) : Q := ⟨a.num * b.den, a.den * b.num⟩

/-- Negation of a fraction. -/
def qNeg (a : Q) : Q := ⟨-a.num, a.den⟩

/-- Python `abs` on the represented value. -/
def qAbs (a : Q) : Q := if qLtb a ⟨0, 1⟩ then qNeg a else a

/-- Python `sum`: left fold of `+` starting from 0. -/
def qSum (l : List Q) : Q := l.foldl qAdd ⟨0, 1⟩

/-- Python `max` over a list of scores, with a default for the empty list;
among value-equal elements the first is kept, as Python's `max` does. -/
def qMaxD (l : List Q) (d : Q) : Q :=
  match l with
  | [] => d
  | x :: xs => xs.foldl (fun m v => if qLtb m v then v else m) x

/-- Python `min` over a list of scores, with a default for the empty list. -/
def qMinD (l : List Q) (d : Q) : Q :=
  match l with
  | [] => d
  | x :: xs => xs.foldl (fun m v => if qLtb v m then v else m) x

/-- A Python cell value: a string, or `None` (written into X rows by the
assembler). -/
inductive PVal where
  | vstr (s : String)
  | vnone
deriving DecidableEq, Repr

/-- Python truthiness of a cell value (`if v:`): the empty string and
`None` are falsy. -/
def pvalTruthy : PVal → Bool
  | .vstr s => !(s == "")
  | .vnone => false

/-- Python `str()` of a cell value. -/
def pvalStr : PVal → String
  | .vstr s => s
  | .vnone => "None"

/-- A record: an insertion-ordered mapping from column name to value
(a Python `dict[str, str]`). -/
abbrev PRecord := List (String × PVal)

/-- A table: an insertion-ordered mapping from integer row id to record
(a Python `dict[int, dict[str, str]]`). -/
abbrev PTable := List (Nat × PRecord)

/-- Python `r[c] if c in r else None`: dictionary lookup. -/
def recGet : PRecord → String → Option PVal
  | [], _ => none
  | (c, v) :: rest, c0 => if c = c0 then some v else recGet rest c0

/-- Python `r[c] = v`: overwrite in place if the key exists, else append. -/
def recSet : PRecord → String → PVal → PRecord
  | [], c0, v0 => [(c0, v0)]
  | (c, v) :: rest, c0, v0 =>
      if c = c0 then (c, v0) :: rest else (c, v) :: recSet rest c0 v0

/-- The expression `str(r[c] if c in r else "")` used by `column_match`. -/
def cellStr (r : PRecord) (c : String) : String :=
  match recGet r c with
  | some v => pvalStr v
  | none => ""

/-- records.py `column_names`: the union of keys across all records,
kept in first-appearance order (Python iterates a set in unspecified
order; only membership and cardinality of this collection matter). -/
def column_names (t : PTable) : List String :=
  t.foldl (fun acc p =>
    p.2.foldl (fun acc2 q => if q.1 ∈ acc2 then acc2 else acc2 ++ [q.1]) acc) []

/-- The values of column `c` across all records of `t`; `none` models the
`KeyError` raised by `r[column]` when some record lacks the column. -/
def colValues (t : PTable) (c : String) : Option (List PVal) :=
  t.foldr (fun p acc =>
    match recGet p.2 c, acc with
    | some v, some l => some (v :: l)
    | _, _ => none) (some [])

/-- Deduplication preserving first appearance (a Python set built from a
list, viewed as a collection with cardinality). -/
def dedupPV (l : List PVal) : List PVal :=
  l.foldl (fun acc v => if v ∈ acc then acc else acc ++ [v]) []

/-- records.py `uniqueness_by_column`:
`items = {r[column] for r in records.values() if r[column]}` followed by
`len(items) / len(records) if len(records) > 0 else 0`.  The subscription
`r[column]` raises `KeyError` when a record lacks the column, modelled by
`none`. -/
def uniqueness_by_column (t : PTable) (c : String) : Option Q :=
  match colValues t c with
  | none => none
  | some vs =>
      let items := dedupPV (vs.filter (fun v => pvalTruthy v))
      some (if 0 < t.length then ⟨(items.length : Int), (t.length : Int)⟩ else ⟨0, 1⟩)

/-- records.py `group_by`: keep the rows whose `record.get(column, "")`
equals the given value for every entry of the column map. -/
def group_by (t : PTable) (cmap : List (String × PVal)) : PTable :=
  t.filter (fun p => cmap.all (fun q => decide ((recGet p.2 q.1).getD (PVal.vstr "") = q.2)))

/-- A scorer: a function from the two compared strings to a score
(matcher.py passes `scorer(str(...), str(...))`). -/
abbrev Scorer := String → String → Q

/-- The mandatory built-in scorer `exact_match` from config.py:
`lambda x, y: 100.0 if x == y else 0.0`. -/
def exact_match : Scorer := fun x y => if x == y then ⟨100, 1⟩ else ⟨0, 1⟩

/-- matcher.py `column_match`: score every row of `y_records` against one
X column (best score over the mapped Y columns, `0` when there are none),
then filter by `>= threshold` when `cutoff` is set and by `> 0` otherwise. -/
def column_match (x_record : PRecord) (y_records : PTable) (x_column : String)
    (y_columns : List String) (scorer : Scorer) (threshold : Q) (cutoff : Bool) :
    List (Nat × Q) :=
  let row_scores := y_records.map (fun p =>
    (p.1, qMaxD (y_columns.map (fun yc => scorer (cellStr x_record x_column) (cellStr p.2 yc))) ⟨0, 1⟩))
  if cutoff then row_scores.filter (fun p => qLeb threshold p.2)
  else row_scores.filter (fun p => qLtb ⟨0, 1⟩ p.2)

/-- The `defaultdict(float)` accumulation `acc[y] += s` of matcher.py:
update in place when the key exists, else append with initial value 0. -/
def accAdd : List (Nat × Q) → Nat → Q → List (Nat × Q)
  | [], y, s => [(y, qAdd ⟨0, 1⟩ s)]
  | (y0, v) :: rest, y, s =>
      if y0 = y then (y0, qAdd v s) :: rest else (y0, v) :: accAdd rest y s

/-- Lookup with default in a string-keyed association list
(`m[c] if c in m else d`). -/
def lookupQ : List (String × Q) → String → Q → Q
  | [], _, d => d
  | (c0, v) :: rest, c, d => if c0 = c then v else lookupQ rest c d

/-- Whether `c` is a key of `columns_to_match`. -/
def hasKeyS (l : List (String × List String)) (c : String) : Bool :=
  l.any (fun p => p.1 == c)

/-- The configuration consumed by `records_match` / `TabularMatcher.match`:
the six sub-maps of config.py, with the three per-column dictionaries
modelled as total functions (the configuration's auto-attachment invariant
guarantees every `columns_to_match` key is present in all three). -/
structure MatcherSetup where
  columns_to_match : List (String × List String)
  columns_to_get : List (String × String)
  columns_to_group : List (String × String)
  scorers : String → Scorer
  thresholds : String → Q
  cutoffs : String → Bool

/-- The intermediate values computed by one iteration of `records_match`:
the adjusted-uniqueness weights, the score accumulator `y_records_scores`,
the yielded `y_matches`, and the yielded `optimal_threshold`. -/
structure RowDetail where
  u_adjusted : List (String × Q)
  acc : List (Nat × Q)
  y_matches : List (Nat × Q)
  optimal : Q
deriving DecidableEq, Repr

/-- The dict comprehension `{y: x_record[x] for y, x in columns_to_group.items()}`
of matcher.py line 229; `x_record[x]` raises `KeyError` when the row lacks
the column, modelled by `none`. -/
def buildGroupMap (xr : PRecord) (cgrp : List (String × String)) :
    Option (List (String × PVal)) :=
  cgrp.foldr (fun p acc =>
    match recGet xr p.2, acc with
    | some v, some l => some ((p.1, v) :: l)
    | _, _ => none) (some [])

/-- The body of the `records_match` loop (matcher.py lines 212-264) for one
X row, given the precomputed `x_uniqueness` list. -/
def rowDetail (x_uniqueness : List (String × Q)) (x_record : PRecord)
    (y_records : PTable) (cfg : MatcherSetup) (required_threshold : Q) :
    Option RowDetail :=
  let x_columns_to_match :=
    (x_record.filter (fun p => hasKeyS cfg.columns_to_match p.1 && pvalTruthy p.2)).map (fun p => p.1)
  let u_selected := x_uniqueness.filter (fun p => decide (p.1 ∈ x_columns_to_match))
  let u_sum := qSum (u_selected.map (fun p => p.2))
  let u_adjusted :=
    if qLtb ⟨0, 1⟩ u_sum then u_selected.map (fun p => (p.1, qDiv p.2 u_sum)) else []
  match buildGroupMap x_record cfg.columns_to_group with
  | none => none
  | some gmap =>
      let y_grouped := group_by y_records gmap
      let acc := cfg.columns_to_match.foldl (fun acc0 p =>
        (column_match x_record y_grouped p.1 p.2 (cfg.scorers p.1)
            (cfg.thresholds p.1) (cfg.cutoffs p.1)).foldl
          (fun acc1 q => accAdd acc1 q.1 (qMul q.2 (lookupQ u_adjusted p.1 ⟨0, 1⟩))) acc0) []
      let best := qMaxD (acc.map (fun p => p.2)) ⟨0, 1⟩
      let y_matches := acc.filter (fun p => qBeq p.2 best && qLeb required_threshold p.2)
      let optimal :=
        qSum (x_columns_to_match.map (fun c => qMul (cfg.thresholds c) (lookupQ u_adjusted c ⟨0, 1⟩)))
      some ⟨u_adjusted, acc, y_matches, optimal⟩

/-- matcher.py lines 208-210: `x_uniqueness`, the per-column uniqueness
of the X table; `none` models the `KeyError` propagating out of
`uniqueness_by_column` on a ragged table. -/
def x_uniqueness_of (t : PTable) : Option (List (String × Q)) :=
  (column_names t).foldr (fun c acc =>
    match uniqueness_by_column t c, acc with
    | some u, some l => some ((c, u) :: l)
    | _, _ => none) (some [])

/-- matcher.py `records_match`, collected into a list: the sequence of
`(x_index, y_matches, optimal_threshold)` triples the generator yields,
with the intermediate per-row values retained. -/
def records_match (x_records y_records : PTable) (cfg : MatcherSetup)
    (required_threshold : Q) : Option (List (Nat × RowDetail)) :=
  match x_uniqueness_of x_records with
  | none => none
  | some xu =>
      x_records.foldr (fun p acc =>
        match rowDetail xu p.2 y_records cfg required_threshold, acc with
        | some d, some l => some ((p.1, d) :: l)
        | _, _ => none) (some [])

/-- The spec's words for step 5 of the record-level matcher:
"`matches = [ (y_id, sc) for (y_id, sc) ∈ acc if sc == best ]`" with
`best = max(acc.values())` (0 if empty).  Stated from the spec, to compare
with the `y_matches` the source actually yields. -/
def specTopMatches (acc : List (Nat × Q)) : List (Nat × Q) :=
  acc.filter (fun p => qBeq p.2 (qMaxD (acc.map (fun q => q.2)) ⟨0, 1⟩))

/-- The status counter of `TabularMatcher.match` (a `Counter` whose keys
are the five status names). -/
structure Summary where
  unmatched : Nat
  matched : Nat
  ambiguous : Nat
  review : Nat
  duplicate : Nat
deriving DecidableEq, Repr

/-- The empty counter. -/
def summaryInit : Summary := ⟨0, 0, 0, 0, 0⟩

/-- The sum of the counter's values. -/
def Summary.total (s : Summary) : Nat :=
  s.unmatched + s.matched + s.ambiguous + s.review + s.duplicate

/-- The five match statuses (keys of `TabularMatcher.MATCH_STATUS`). -/
inductive StatusKey where
  | unmatched
  | matched
  | ambiguous
  | review
  | duplicate
deriving DecidableEq, Repr

/-- `TabularMatcher.MATCH_STATUS`: the label written into the
`match_status` column for each status. -/
def StatusKey.label : StatusKey → String
  | .unmatched => "UNMATCHED"
  | .matched => "MATCHED"
  | .ambiguous => "AMBIGUOUS"
  | .review => "REVIEW"
  | .duplicate => "DUPLICATE"

/-- `match_summary[status] += 1`. -/
def Summary.incr (s : Summary) : StatusKey → Summary
  | .unmatched => { s with unmatched := s.unmatched + 1 }
  | .matched => { s with matched := s.matched + 1 }
  | .ambiguous => { s with ambiguous := s.ambiguous + 1 }
  | .review => { s with review := s.review + 1 }
  | .duplicate => { s with duplicate := s.duplicate + 1 }

/-- `TabularMatcher.ADD_COLUMNS["match_status"]`. -/
def match_status_col : String := "match_status"

/-- `TabularMatcher.ADD_COLUMNS["matched_with_row"]`. -/
def matched_with_row_col : String := "row(s)_matched"

/-- `TabularMatcher.ADD_COLUMNS["match_score"]`. -/
def match_score_col : String := "match_score"

/-- The mutable X rows during `match()`: the shallow copy `_x_records`
shares each inner row dict with the caller's `x_records`, so a heap entry
keyed by row id is the state of the caller's original row object. -/
abbrev Heap := List (Nat × PRecord)

/-- `_x_records[i][c] = v`: write one cell of the row object with id `i`. -/
def heapSetCell (h : Heap) (i : Nat) (c : String) (v : PVal) : Heap :=
  h.map (fun p => if p.1 = i then (p.1, recSet p.2 c v) else p)

/-- The row object with id `i`. -/
def heapGet (h : Heap) (i : Nat) : Option PRecord :=
  (h.find? (fun p => p.1 == i)).map (fun p => p.2)

/-- One cell of the row object with id `i`. -/
def heapCell (h : Heap) (i : Nat) (c : String) : Option PVal :=
  match heapGet h i with
  | some r => recGet r c
  | none => none

/-- `y_index_to_x_matches`: y row id mapped to the dict of x row ids and
scores that matched it. -/
abbrev YtoX := List (Nat × List (Nat × Q))

/-- Assignment into the inner dict of `y_index_to_x_matches`. -/
def innerSet : List (Nat × Q) → Nat → Q → List (Nat × Q)
  | [], x, s => [(x, s)]
  | (x0, v) :: rest, x, s =>
      if x0 = x then (x0, s) :: rest else (x0, v) :: innerSet rest x s

/-- `y_index_to_x_matches[y_index].update({x_index: score})` on the
`defaultdict(dict)`. -/
def y2xAdd : YtoX → Nat → Nat → Q → YtoX
  | [], y, x, s => [(y, [(x, s)])]
  | (y0, m) :: rest, y, x, s =>
      if y0 = y then (y0, innerSet m x s) :: rest else (y0, m) :: y2xAdd rest y x s

/-- Rendering of a score for the `match_score` column.  Python renders the
float (`str(x[1])`); the exact text is never relied upon by a claim, only
that the joined string of an empty match list is `""`. -/
def qToStr (q : Q) : String := toString q.num ++ "/" ++ toString q.den

/-- `", ".join(map(lambda x: str(x[0]) if x else "", y_matches))` (a tuple
is always truthy, so the branch is always `str(x[0])`). -/
def joinRows (ms : List (Nat × Q)) : String :=
  String.intercalate ", " (ms.map (fun p => toString p.1))

/-- `", ".join(map(lambda x: str(x[1]) if x else "", y_matches))`. -/
def joinScores (ms : List (Nat × Q)) : String :=
  String.intercalate ", " (ms.map (fun p => qToStr p.2))

/-- The state threaded through pass 1 of `TabularMatcher.match`: the X row
heap, the status counter, `y_index_to_x_matches`, and the number of
invocations of the progress callback `update_func`. -/
structure Pass1St where
  heap : Heap
  summary : Summary
  y2x : YtoX
  callbacks : Nat
deriving Repr

/-- `self.__y_records[y_index][y_column]`; `none` models the `KeyError`
raised when the matched Y row lacks the column. -/
def yCellValue (y_records : PTable) (yi : Nat) (yc : String) : Option PVal :=
  match heapGet y_records yi with
  | some r => recGet r yc
  | none => none

/-- The pass-1 copy loop
`for y_column, x_column in columns_to_get.items(): _x_records[x_index][x_column] = self.__y_records[y_index][y_column]`. -/
def copyCells (y_records : PTable) (i yi : Nat) :
    List (String × String) → Heap → Option Heap
  | [], h => some h
  | (yc, xc) :: rest, h =>
      match yCellValue y_records yi yc with
      | some v => copyCells y_records i yi rest (heapSetCell h i xc v)
      | none => none

/-- The pass-1 nulling loop
`for y_column, x_column in columns_to_get.items(): _x_records[x_index][x_column] = None`
(note: pass 1 writes the destination `x_column`, the map's value). -/
def nullDestCells (ctg : List (String × String)) (i : Nat) (h : Heap) : Heap :=
  ctg.foldl (fun h0 p => heapSetCell h0 i p.2 PVal.vnone) h

/-- The three reserved-column writes at the end of each pass-1 iteration
(matcher.py lines 457-465). -/
def writeRowLabels (h : Heap) (i : Nat) (status : StatusKey) (ms : List (Nat × Q)) : Heap :=
  heapSetCell
    (heapSetCell
      (heapSetCell h i match_status_col (PVal.vstr status.label))
      i matched_with_row_col (PVal.vstr (joinRows ms)))
    i match_score_col (PVal.vstr (joinScores ms))

/-- One pass-1 iteration of `TabularMatcher.match` (matcher.py lines
432-470) applied to the yielded `(x_index, y_matches, optimal)`. -/
def annotateRow (y_records : PTable) (cfg : MatcherSetup) (i : Nat) (d : RowDetail)
    (st : Pass1St) : Option Pass1St :=
  match d.y_matches with
  | [(yi, sc)] =>
      let status := if qLeb sc d.optimal then StatusKey.review else StatusKey.matched
      match copyCells y_records i yi cfg.columns_to_get st.heap with
      | none => none
      | some h =>
          some ⟨writeRowLabels h i status d.y_matches,
                st.summary.incr status,
                y2xAdd st.y2x yi i sc,
                st.callbacks + 1⟩
  | ms =>
      let status := if ms.length > 1 then StatusKey.ambiguous else StatusKey.unmatched
      some ⟨writeRowLabels (nullDestCells cfg.columns_to_get i st.heap) i status ms,
            st.summary.incr status,
            st.y2x,
            st.callbacks + 1⟩

/-- Pass 1 of `TabularMatcher.match`: consume the `records_match` stream
row by row, annotating as it goes.  `.error k` is an uncaught exception
after `k` progress-callback invocations. -/
def pass1 (y_records : PTable) (cfg : MatcherSetup) (required_threshold : Q)
    (xu : List (String × Q)) : PTable → Pass1St → Except Nat Pass1St
  | [], st => .ok st
  | (i, xr) :: rest, st =>
      match rowDetail xu xr y_records cfg required_threshold with
      | none => .error st.callbacks
      | some d =>
          match annotateRow y_records cfg i d st with
          | none => .error st.callbacks
          | some st1 => pass1 y_records cfg required_threshold xu rest st1

/-- The pass-2 demotion of a single non-top X row (matcher.py lines
503-513).  Note the nulling loop `for column in self.config.columns_to_get`
iterates the map's KEYS (Y-column names), unlike pass 1 which writes the
destination values. -/
def demoteRow (ctg : List (String × String)) (x : Nat) (hs : Heap × Summary) :
    Heap × Summary :=
  let h1 := ctg.foldl (fun h0 p => heapSetCell h0 x p.1 PVal.vnone) hs.1
  let h2 := heapSetCell h1 x match_status_col (PVal.vstr StatusKey.unmatched.label)
  let h3 := heapSetCell h2 x match_score_col (PVal.vstr "")
  let h4 := heapSetCell h3 x matched_with_row_col (PVal.vstr "")
  (h4, hs.2.incr StatusKey.unmatched)

/-- The pass-2 duplicate branch body for one X row: overwrite the status
and count a duplicate. -/
def dupStep (hs : Heap × Summary) (p : Nat × Q) : Heap × Summary :=
  (heapSetCell hs.1 p.1 match_status_col (PVal.vstr StatusKey.duplicate.label),
   hs.2.incr StatusKey.duplicate)

/-- The pass-2 demote branch body for one X row: demote unless its score
is the maximum. -/
def demoteStep (ctg : List (String × String)) (maxScore : Q)
    (hs : Heap × Summary) (p : Nat × Q) : Heap × Summary :=
  if qBeq p.2 maxScore then hs else demoteRow ctg p.1 hs

/-- One pass-2 group (matcher.py lines 472-513): for a Y row matched by
more than one X row, either mark every X row `DUPLICATE` (tie at the top,
or score gap below `duplicate_threshold`) or demote every non-top X row. -/
def pass2Group (duplicate_threshold : Q) (ctg : List (String × String))
    (hs : Heap × Summary) (g : Nat × List (Nat × Q)) : Heap × Summary :=
  let xm := g.2
  if xm.length > 1 then
    let maxScore := qMaxD (xm.map (fun p => p.2)) ⟨0, 1⟩
    let minScore := qMinD (xm.map (fun p => p.2)) ⟨0, 1⟩
    let check := xm.filter (fun p => qBeq p.2 maxScore)
    if check.length > 1 || qLtb (qAbs (qSub maxScore minScore)) duplicate_threshold then
      xm.foldl dupStep hs
    else
      xm.foldl (demoteStep ctg maxScore) hs
  else hs

/-- Pass 2 of `TabularMatcher.match`: iterate `y_index_to_x_matches`. -/
def pass2 (duplicate_threshold : Q) (ctg : List (String × String)) (g : YtoX)
    (hs : Heap × Summary) : Heap × Summary :=
  g.foldl (pass2Group duplicate_threshold ctg) hs

/-- The outcome of `TabularMatcher.match`:
`noneEarly` is the early `return` (returns `None`, no callback invoked),
`crashed k` an exception escaping after `k` callback invocations, and
`ok heap summary k` the returned pair after `k` callback invocations,
where `heap` holds the final state of the (shared) X row objects. -/
inductive MatchResult where
  | noneEarly
  | crashed (callbacks : Nat)
  | ok (heap : Heap) (summary : Summary) (callbacks : Nat)
deriving DecidableEq, Repr

/-- `TabularMatcher.match` (matcher.py lines 394-515). -/
def pyMatch (x_records y_records : PTable) (cfg : MatcherSetup)
    (required_threshold duplicate_threshold : Q) : MatchResult :=
  if x_records.isEmpty && y_records.isEmpty then .noneEarly
  else
    match x_uniqueness_of x_records with
    | none => .crashed 0
    | some xu =>
        match pass1 y_records cfg required_threshold xu x_records
            ⟨x_records, summaryInit, [], 0⟩ with
        | .error k => .crashed k
        | .ok st =>
            let hs := pass2 duplicate_threshold cfg.columns_to_get st.y2x (st.heap, st.summary)
            .ok hs.1 hs.2 st.callbacks

/-- Number of progress-callback invocations of a `match()` outcome. -/
def MatchResult.callbackCount : MatchResult → Nat
  | .noneEarly => 0
  | .crashed k => k
  | .ok _ _ k => k

/-- Whether `match()` returned the pair `(annotated X, counter)`. -/
def MatchResult.returnsPair : MatchResult → Bool
  | .ok _ _ _ => true
  | _ => false

/-- The sum of the returned counter's values, when a pair was returned. -/
def MatchResult.summaryTotal : MatchResult → Option Nat
  | .ok _ s _ => some s.total
  | _ => none

/-- One cell of the X row object with id `i` after `match()`. -/
def MatchResult.cellAt : MatchResult → Nat → String → Option PVal
  | .ok h _ _, i, c => heapCell h i c
  | _, _, _ => none

/-- The pass-1 state reached by a successful run of `match()`. -/
def pass1Result (x_records y_records : PTable) (cfg : MatcherSetup)
    (required_threshold : Q) : Option Pass1St :=
  match x_uniqueness_of x_records with
  | none => none
  | some xu =>
      match pass1 y_records cfg required_threshold xu x_records
          ⟨x_records, summaryInit, [], 0⟩ with
      | .ok st => some st
      | .error _ => none

/-- The `y_index_to_x_matches` map built by pass 1. -/
def y2xOf (x_records y_records : PTable) (cfg : MatcherSetup)
    (required_threshold : Q) : Option YtoX :=
  (pass1Result x_records y_records cfg required_threshold).map (fun st => st.y2x)

/-- The number of rows pass 2 reassigns inside one group. -/
def groupReassign (duplicate_threshold : Q) (g : Nat × List (Nat × Q)) : Nat :=
  let xm := g.2
  if xm.length > 1 then
    let maxScore := qMaxD (xm.map (fun p => p.2)) ⟨0, 1⟩
    let minScore := qMinD (xm.map (fun p => p.2)) ⟨0, 1⟩
    let check := xm.filter (fun p => qBeq p.2 maxScore)
    if check.length > 1 || qLtb (qAbs (qSub maxScore minScore)) duplicate_threshold then
      xm.length
    else
      (xm.filter (fun p => !(qBeq p.2 maxScore))).length
  else 0

/-- The number of X rows pass 2 reassigns (marks `DUPLICATE` or demotes). -/
def reassignCount (duplicate_threshold : Q) (g : YtoX) : Nat :=
  (g.map (groupReassign duplicate_threshold)).sum

/-- The two thresholds held by `TabularMatcher`. -/
structure TabularMatcherState where
  required_threshold : Q
  duplicate_threshold : Q
deriving DecidableEq, Repr

/-- `TabularMatcher.__init__` (matcher.py lines 353-354):
`self.required_threshold = 75.0` and `self.duplicate_threshold = 3.0`. -/
def tabularMatcherInit : TabularMatcherState := ⟨⟨75, 1⟩, ⟨3, 1⟩⟩

/-- The error taxonomy of record_matcher/errors.py, as far as the claims
reference it. -/
inductive CfgError where
  | columnNotFound
  | xUniqueConstraint
  | overwriteError
  | scorerNotFound
  | columnToMatchLock
deriving DecidableEq, Repr

deriving instance DecidableEq for Except

/-- Python dict assignment on a string-keyed map. -/
def dictSetS : List (String × String) → String → String → List (String × String)
  | [], y, x => [(y, x)]
  | (y0, v) :: rest, y, x =>
      if y0 = y then (y0, x) :: rest else (y0, v) :: dictSetS rest y x

/-- record_matcher/config.py `ColumnsToGet.__setitem__` (lines 242-260):
a key outside the Y columns is silently ignored; with `allow_overwrite`
unset, a destination that is an existing X column raises
`TBConfigOverwriteError`; a destination already present among the map's
values raises `TBConfigXUniqueConstraint`; otherwise the pair is stored. -/
def columnsToGetSetItem (yCols xCols : List String) (allowOverwrite : Bool)
    (m : List (String × String)) (y x : String) :
    Except CfgError (List (String × String)) :=
  if y ∈ yCols then
    if allowOverwrite then
      if x ∈ m.map (fun p => p.2) then .error .xUniqueConstraint
      else .ok (dictSetS m y x)
    else
      if x ∈ xCols then .error .overwriteError
      else if x ∈ m.map (fun p => p.2) then .error .xUniqueConstraint
      else .ok (dictSetS m y x)
  else .ok m

/-- record_matcher/config.py `MatcherConfig` state: the two cached column
sets (absent until the first table assignment) and the six sub-maps. -/
structure RMConfig where
  x_columns : Option (List String)
  y_columns : Option (List String)
  columns_to_match : List (String × List String)
  columns_to_get : List (String × String)
  columns_to_group : List (String × String)
  scorers_by_column : List (String × String)
  thresholds_by_column : List (String × Q)
  cutoffs_by_column : List (String × Bool)
deriving DecidableEq, Repr

/-- `MatcherConfig.__init__`: no column sets, all sub-maps empty. -/
def rmConfigInit : RMConfig := ⟨none, none, [], [], [], [], [], []⟩

/-- Python set equality of two column collections. -/
def setEqS (a b : List String) : Bool :=
  a.all (fun c => decide (c ∈ b)) && b.all (fun c => decide (c ∈ a))

/-- `MatcherConfig.reset`: clear all six sub-maps. -/
def RMConfig.reset (cfg : RMConfig) : RMConfig :=
  { cfg with
    columns_to_match := [], columns_to_get := [], columns_to_group := [],
    scorers_by_column := [], thresholds_by_column := [], cutoffs_by_column := [] }

/-- record_matcher/config.py `x_records` setter (lines 54-63):
`if not self.__x_columns:` store the new columns (this branch also fires
when the cached column set is EMPTY, emptiness being falsy);
`elif self.__x_columns != columns:` store and `reset()`; else pass. -/
def RMConfig.setXRecords (cfg : RMConfig) (recs : PTable) : RMConfig :=
  let cols := column_names recs
  match cfg.x_columns with
  | none => { cfg with x_columns := some cols }
  | some prev =>
      if prev.isEmpty then { cfg with x_columns := some cols }
      else if !(setEqS prev cols) then ({ cfg with x_columns := some cols }).reset
      else cfg

/-- record_matcher/config.py `y_records` setter (lines 69-78), symmetric
to the `x_records` setter. -/
def RMConfig.setYRecords (cfg : RMConfig) (recs : PTable) : RMConfig :=
  let cols := column_names recs
  match cfg.y_columns with
  | none => { cfg with y_columns := some cols }
  | some prev =>
      if prev.isEmpty then { cfg with y_columns := some cols }
      else if !(setEqS prev cols) then ({ cfg with y_columns := some cols }).reset
      else cfg

/-- `config.columns_to_get[y] = x` at the `MatcherConfig` level (the
properties `y_columns` / `x_columns` are read from the cached sets). -/
def RMConfig.columnsToGetSet (cfg : RMConfig) (y x : String) :
    Except CfgError RMConfig :=
  match columnsToGetSetItem (cfg.y_columns.getD []) (cfg.x_columns.getD [])
      false cfg.columns_to_get y x with
  | .ok m => .ok { cfg with columns_to_get := m }
  | .error e => .error e

/-- All six sub-maps of a configuration are empty. -/
def RMConfig.subMapsCleared (cfg : RMConfig) : Prop :=
  cfg.columns_to_match = [] ∧ cfg.columns_to_get = [] ∧ cfg.columns_to_group = [] ∧
  cfg.scorers_by_column = [] ∧ cfg.thresholds_by_column = [] ∧ cfg.cutoffs_by_column = []

instance (cfg : RMConfig) : Decidable cfg.subMapsCleared := by
  unfold RMConfig.subMapsCleared
  infer_instance

/-- Two configurations agree on all six sub-maps. -/
def RMConfig.subMapsEq (a b : RMConfig) : Prop :=
  a.columns_to_match = b.columns_to_match ∧ a.columns_to_get = b.columns_to_get ∧
  a.columns_to_group = b.columns_to_group ∧ a.scorers_by_column = b.scorers_by_column ∧
  a.thresholds_by_column = b.thresholds_by_column ∧ a.cutoffs_by_column = b.cutoffs_by_column

/-! Concrete inputs used by the claim theorems. -/

/-- Shorthand for a string cell. -/
def strv (s : String) : PVal := PVal.vstr s

/-- A `MatcherSetup` with the `exact_match` scorer, thresholds 100 and
cutoffs false on every column, and no grouping. -/
def mkSetup (ctm : List (String × List String)) (ctg : List (String × String)) :
    MatcherSetup :=
  ⟨ctm, ctg, [], fun _ => exact_match, fun _ => ⟨100, 1⟩, fun _ => false⟩

/-- Lookup with default in a `Nat`-keyed association list. -/
def lookupNQ : List (Nat × Q) → Nat → Q → Q
  | [], _, d => d
  | (i0, v) :: rest, i, d => if i0 = i then v else lookupNQ rest i d

/-- C1 input: `X = {0: {a: "1"}}`. -/
def c1X : PTable := [(0, [("a", strv "1")])]

/-- C1 input: `Y = {0: {a: "1"}}`. -/
def c1Y : PTable := [(0, [("a", strv "1")])]

/-- C1 configuration: match column `a` against column `a`. -/
def c1Cfg : MatcherSetup := mkSetup [("a", ["a"])] []

/-- The row detail `records_match` computes for the single C1 row at
`required_threshold = 150`: the accumulator holds `{0: 100}` but the yielded
`y_matches` is empty. -/
def c1Detail150 : RowDetail :=
  ⟨[("a", ⟨1, 1⟩)], [(0, ⟨100, 1⟩)], [], ⟨100, 1⟩⟩

/-- The row detail `records_match` computes for the single C1 row at
`required_threshold = 0`. -/
def c1Detail0 : RowDetail :=
  ⟨[("a", ⟨1, 1⟩)], [(0, ⟨100, 1⟩)], [(0, ⟨100, 1⟩)], ⟨100, 1⟩⟩

/-- C2 input: `X = {0: {a:"1", b:"2"}, 1: {a:"1", b:"3"}}`. -/
def c2X : PTable :=
  [(0, [("a", strv "1"), ("b", strv "2")]), (1, [("a", strv "1"), ("b", strv "3")])]

/-- C2 input: `Y = {0: {a:"1", b:"2", c:"V"}}`. -/
def c2Y : PTable := [(0, [("a", strv "1"), ("b", strv "2"), ("c", strv "V")])]

/-- C2 configuration: match `a`,`b`; `columns_to_get = {c: g}`, i.e. copy
Y column `c` into the (new) X destination column `g`. -/
def c2Cfg : MatcherSetup := mkSetup [("a", ["a"]), ("b", ["b"])] [("c", "g")]

/-- C3 input: the caller's row object `{a: "1"}` of X row 0. -/
def c3Rec0 : PRecord := [("a", strv "1")]

/-- C3 input: `X = {0: {a: "1"}}`. -/
def c3X : PTable := [(0, c3Rec0)]

/-- C3 configuration. -/
def c3Cfg : MatcherSetup := mkSetup [("a", ["a"])] []

/-- C4 input: a table in which record 1 omits column `a`:
`{0: {a: "x"}, 1: {}}`. -/
def c4T : PTable := [(0, [("a", strv "x")]), (1, [])]

/-- C6 input: `X = {0: {a:"1", b:"2"}, 1: {a:"1", b:"2"}}` (two identical
rows). -/
def c6X : PTable :=
  [(0, [("a", strv "1"), ("b", strv "2")]), (1, [("a", strv "1"), ("b", strv "2")])]

/-- C6 input: `Y = {0: {a:"1", b:"2"}}`. -/
def c6Y : PTable := [(0, [("a", strv "1"), ("b", strv "2")])]

/-- C6 configuration. -/
def c6Cfg : MatcherSetup := mkSetup [("a", ["a"]), ("b", ["b"])] []

/-- C7 input (spec scenario S1): `X = {0: {a: 12, b: 34}}`. -/
def c7X : PTable := [(0, [("a", strv "12"), ("b", strv "34")])]

/-- C7 input (spec scenario S1): `Y = {0: {a:12, b:34}, 1: {a:12, b:35}}`. -/
def c7Y : PTable :=
  [(0, [("a", strv "12"), ("b", strv "34")]), (1, [("a", strv "12"), ("b", strv "35")])]

/-- C7 configuration: scorer `exact_match`, thresholds 100, cutoffs false,
`columns_to_get = {}`, `columns_to_group = {}`. -/
def c7Cfg : MatcherSetup := mkSetup [("a", ["a"]), ("b", ["b"])] []

/-- The row detail `records_match` computes for the C7 row: weights
`{a: 1/2, b: 1/2}`, accumulator `{y0: 100, y1: 50}`, matches `[(0, 100)]`,
optimal threshold `100` (the fractions are unreduced). -/
def c7Detail : RowDetail :=
  ⟨[("a", ⟨1, 2⟩), ("b", ⟨1, 2⟩)],
   [(0, ⟨400, 4⟩), (1, ⟨100, 2⟩)],
   [(0, ⟨400, 4⟩)],
   ⟨400, 4⟩⟩

/-- C9 input: a Y table with the single column `b`. -/
def c9YT : PTable := [(0, [("b", strv "1")])]

/-- C9 input: an X table with the single column `a`. -/
def c9XT2 : PTable := [(0, [("a", strv "1")])]

/-- C9 state: the configuration after `x_records = {}` (caching the EMPTY
X column set) and `y_records = c9YT`. -/
def c9cfg2 : RMConfig := (rmConfigInit.setXRecords []).setYRecords c9YT

/-- C9 state: `c9cfg2` after the assignment `columns_to_get["b"] = "c"`. -/
def c9cfg3 : RMConfig := { c9cfg2 with columns_to_get := [("b", "c")] }

/-- C9 witness state: a configuration with a cached non-empty X column set
and a populated sub-map. -/
def c9wCfg : RMConfig :=
  ⟨some ["a"], some ["b"], [], [("b", "c")], [], [], [], []⟩

/-- C9 witness input: a table whose column set `{z}` differs from `{a}`. -/
def c9wT : PTable := [(0, [("z", strv "1")])]

/-! Helper lemmas about the status counter. -/

/-- Incrementing one status bumps the counter total by one. -/
theorem Summary.incr_total (s : Summary) (k : StatusKey) :
    (s.incr k).total = s.total + 1 := by
  cases k <;> simp [Summary.incr, Summary.total] <;> omega

/-- Each pass-1 iteration counts exactly one status and invokes the
callback exactly once. -/
theorem annotateRow_stats (y_records : PTable) (cfg : MatcherSetup) (i : Nat)
    (d : RowDetail) (st st1 : Pass1St)
    (h : annotateRow y_records cfg i d st = some st1) :
    st1.summary.total = st.summary.total + 1 ∧ st1.callbacks = st.callbacks + 1 := by
  unfold annotateRow at h
  split at h
  · split at h <;> split at h
    · exact absurd h (by simp)
    · simp only [Option.some.injEq] at h
      subst h
      exact ⟨Summary.incr_total _ _, rfl⟩
    · exact absurd h (by simp)
    · simp only [Option.some.injEq] at h
      subst h
      exact ⟨Summary.incr_total _ _, rfl⟩
  · simp only [Option.some.injEq] at h
    subst h
    exact ⟨Summary.incr_total _ _, rfl⟩

/-- Pass 1 counts one status and one callback per processed X row. -/
theorem pass1_stats (y_records : PTable) (cfg : MatcherSetup) (req : Q)
    (xu : List (String × Q)) :
    ∀ (rows : PTable) (st st1 : Pass1St),
      pass1 y_records cfg req xu rows st = Except.ok st1 →
      st1.summary.total = st.summary.total + rows.length ∧
      st1.callbacks = st.callbacks + rows.length := by
  intro rows
  induction rows with
  | nil =>
      intro st st1 h
      unfold pass1 at h
      simp only [Except.ok.injEq] at h
      subst h
      simp
  | cons p rest ih =>
      intro st st1 h
      obtain ⟨i, xr⟩ := p
      unfold pass1 at h
      cases hd : rowDetail xu xr y_records cfg req with
      | none => rw [hd] at h; exact absurd h (by simp)
      | some d =>
          rw [hd] at h
          dsimp only at h
          cases ha : annotateRow y_records cfg i d st with
          | none => rw [ha] at h; exact absurd h (by simp)
          | some st2 =>
              rw [ha] at h
              dsimp only at h
              obtain ⟨t1, t2⟩ := annotateRow_stats y_records cfg i d st st2 ha
              obtain ⟨t3, t4⟩ := ih st2 st1 h
              simp only [List.length_cons]
              omega

/-- Demoting a row counts one more `unmatched`. -/
theorem demoteRow_total (ctg : List (String × String)) (x : Nat)
    (hs : Heap × Summary) : (demoteRow ctg x hs).2.total = hs.2.total + 1 := by
  simp [demoteRow, Summary.incr_total]

/-- The duplicate branch of pass 2 counts one `duplicate` per group row. -/
theorem dupFold_total (xm : List (Nat × Q)) :
    ∀ hs : Heap × Summary,
      (xm.foldl dupStep hs).2.total = hs.2.total + xm.length := by
  induction xm with
  | nil => intro hs; simp
  | cons p rest ih =>
      intro hs
      simp only [List.foldl_cons, List.length_cons]
      rw [ih]
      have hstep : (dupStep hs p).2.total = hs.2.total + 1 := by
        simp [dupStep, Summary.incr_total]
      omega

/-- The demote branch of pass 2 counts one `unmatched` per non-top row. -/
theorem demoteFold_total (ctg : List (String × String)) (maxScore : Q)
    (xm : List (Nat × Q)) :
    ∀ hs : Heap × Summary,
      (xm.foldl (demoteStep ctg maxScore) hs).2.total
        = hs.2.total + (xm.filter (fun p => !(qBeq p.2 maxScore))).length := by
  induction xm with
  | nil => intro hs; simp
  | cons p rest ih =>
      intro hs
      simp only [List.foldl_cons, List.filter_cons]
      by_cases hq : qBeq p.2 maxScore
      · rw [ih]
        have hstep : demoteStep ctg maxScore hs p = hs := by
          simp [demoteStep, hq]
        rw [hstep]
        simp [hq]
      · rw [ih]
        have hstep : (demoteStep ctg maxScore hs p).2.total = hs.2.total + 1 := by
          simp [demoteStep, hq, demoteRow_total]
        simp only [hq]
        simp
        omega

/-- One pass-2 group adds `groupReassign` to the counter total. -/
theorem pass2Group_total (dup : Q) (ctg : List (String × String))
    (hs : Heap × Summary) (g : Nat × List (Nat × Q)) :
    (pass2Group dup ctg hs g).2.total = hs.2.total + groupReassign dup g := by
  simp only [pass2Group, groupReassign]
  split
  · split
    · exact dupFold_total _ hs
    · exact demoteFold_total _ _ _ hs
  · simp

/-- Pass 2 adds `reassignCount` to the counter total. -/
theorem pass2_total (dup : Q) (ctg : List (String × String)) (g : YtoX) :
    ∀ hs : Heap × Summary,
      (pass2 dup ctg g hs).2.total = hs.2.total + reassignCount dup g := by
  induction g with
  | nil => intro hs; simp [pass2, reassignCount]
  | cons gr rest ih =>
      intro hs
      simp only [pass2, List.foldl_cons, reassignCount, List.map_cons, List.sum_cons]
      have h1 := pass2Group_total dup ctg hs gr
      have h2 := ih (pass2Group dup ctg hs gr)
      simp only [pass2, reassignCount] at h2
      omega

/-! The claim theorems. -/

/-- C1 (counterexample): on `X = {0:{a:"1"}}`, `Y = {0:{a:"1"}}` with
`required_threshold = 150`, `records_match` fills the accumulator with
`{0: 100}` yet yields an EMPTY matches list, while the claim says the
yielded list contains exactly the accumulator pairs at the maximum score
(and is empty only when the accumulator is empty): the score filter by
`required_threshold` happens inside `records_match`, not afterwards. -/
theorem c1_counterexample :
    records_match c1X c1Y c1Cfg ⟨150, 1⟩ = some [(0, c1Detail150)] ∧
    c1Detail150.acc = [(0, ⟨100, 1⟩)] ∧
    c1Detail150.y_matches = [] ∧
    specTopMatches c1Detail150.acc = [(0, ⟨100, 1⟩)] ∧
    c1Detail150.y_matches ≠ specTopMatches c1Detail150.acc := by decide

/-- C1 (amended): the matches list `records_match` yields for an X row
contains exactly the accumulator pairs whose score both equals
`max(acc.values())` and is `≥ required_threshold`; no later filtering
takes place. -/
theorem c1_amended (xu : List (String × Q)) (xr : PRecord) (y_records : PTable)
    (cfg : MatcherSetup) (req : Q) (d : RowDetail)
    (h : rowDetail xu xr y_records cfg req = some d) (p : Nat × Q) :
    p ∈ d.y_matches ↔
      (p ∈ d.acc ∧
        (qBeq p.2 (qMaxD (d.acc.map (fun q => q.2)) ⟨0, 1⟩) && qLeb req p.2) = true) := by
  simp only [rowDetail] at h
  cases hg : buildGroupMap xr cfg.columns_to_group with
  | none => rw [hg] at h; exact absurd h (by simp)
  | some gmap =>
      rw [hg] at h
      dsimp only at h
      simp only [Option.some.injEq] at h
      subst h
      simp only [List.mem_filter]

/-- C1 (witness): the amended theorem applied at the C1 inputs with
`required_threshold = 0`. -/
theorem c1_amended_witness :
    (0, (⟨100, 1⟩ : Q)) ∈ c1Detail0.y_matches ↔
      ((0, (⟨100, 1⟩ : Q)) ∈ c1Detail0.acc ∧
        (qBeq ⟨100, 1⟩ (qMaxD (c1Detail0.acc.map (fun q => q.2)) ⟨0, 1⟩) &&
          qLeb ⟨0, 1⟩ ⟨100, 1⟩) = true) :=
  c1_amended [("a", ⟨1, 1⟩)] [("a", strv "1")] c1Y c1Cfg ⟨0, 1⟩ c1Detail0
    (by decide) (0, ⟨100, 1⟩)

/-- C2 (evaluation at the failing input): on `X = {0:{a:"1",b:"2"},
1:{a:"1",b:"3"}}`, `Y = {0:{a:"1",b:"2",c:"V"}}` with `columns_to_get =
{c: g}`, both X rows match y0 and row 1 is demoted in pass 2; the demotion
sets its status to `UNMATCHED` and clears `match_score` and
`row(s)_matched` to empty strings as claimed, but it nulls the cell named
by the map's KEY `c` (creating a new column) and leaves the destination
cell `g` still holding the copied value `"V"`, instead of nulling `g`. -/
theorem c2_pass2_nulls_keys :
    (pyMatch c2X c2Y c2Cfg ⟨0, 1⟩ ⟨3, 1⟩).cellAt 1 match_status_col
        = some (PVal.vstr "UNMATCHED") ∧
    (pyMatch c2X c2Y c2Cfg ⟨0, 1⟩ ⟨3, 1⟩).cellAt 1 match_score_col
        = some (PVal.vstr "") ∧
    (pyMatch c2X c2Y c2Cfg ⟨0, 1⟩ ⟨3, 1⟩).cellAt 1 matched_with_row_col
        = some (PVal.vstr "") ∧
    (pyMatch c2X c2Y c2Cfg ⟨0, 1⟩ ⟨3, 1⟩).cellAt 1 "g" = some (PVal.vstr "V") ∧
    (pyMatch c2X c2Y c2Cfg ⟨0, 1⟩ ⟨3, 1⟩).cellAt 1 "c" = some PVal.vnone := by decide

/-- C3 (evaluation at the failing input): the heap entry of X row 0 is the
caller's original row object (the engine's `dict.copy()` shares the inner
row dicts), and after `match()` it carries a `match_status` column the
input record `c3Rec0` never had: `match()` mutates the input records. -/
theorem c3_input_mutated :
    (pyMatch c3X [] c3Cfg ⟨75, 1⟩ ⟨3, 1⟩).returnsPair = true ∧
    (pyMatch c3X [] c3Cfg ⟨75, 1⟩ ⟨3, 1⟩).cellAt 0 match_status_col
        = some (PVal.vstr "UNMATCHED") ∧
    recGet c3Rec0 match_status_col = none := by decide

/-- C4 (evaluation at the failing input): on a table in which record 1
omits column `a`, `uniqueness_by_column` raises `KeyError` (modelled by
`none`) instead of treating the missing cell as empty and returning 1/2. -/
theorem c4_keyerror_on_ragged_table :
    uniqueness_by_column c4T "a" = none ∧ c4T.length = 2 := by decide

/-- C5 (counterexample): the freshly constructed result assembler's
`duplicate_threshold` is not 0.0. -/
theorem c5_counterexample :
    qBeq tabularMatcherInit.duplicate_threshold ⟨0, 1⟩ = false := by decide

/-- C5 (amended): `TabularMatcher.__init__` sets `required_threshold`
to 75.0 and `duplicate_threshold` to 3.0. -/
theorem c5_defaults :
    qBeq tabularMatcherInit.required_threshold ⟨75, 1⟩ = true ∧
    qBeq tabularMatcherInit.duplicate_threshold ⟨3, 1⟩ = true ∧
    tabularMatcherInit.required_threshold = ⟨75, 1⟩ ∧
    tabularMatcherInit.duplicate_threshold = ⟨3, 1⟩ := by decide

/-- C6 (counterexample): on two identical X rows both matching the single
Y row, `match()` succeeds, the two rows end `DUPLICATE`, yet the counter
records `review = 2` AND `duplicate = 2`: its values sum to 4, not
`|X| = 2`, because pass 2 counts reassigned rows again without removing
their pass-1 count. -/
theorem c6_counterexample :
    (pyMatch c6X c6Y c6Cfg ⟨75, 1⟩ ⟨3, 1⟩).returnsPair = true ∧
    (pyMatch c6X c6Y c6Cfg ⟨75, 1⟩ ⟨3, 1⟩).cellAt 0 match_status_col
        = some (PVal.vstr "DUPLICATE") ∧
    (pyMatch c6X c6Y c6Cfg ⟨75, 1⟩ ⟨3, 1⟩).cellAt 1 match_status_col
        = some (PVal.vstr "DUPLICATE") ∧
    (pyMatch c6X c6Y c6Cfg ⟨75, 1⟩ ⟨3, 1⟩).summaryTotal ≠ some c6X.length := by decide

/-- C6 (amended): on every successful run, pass 1 counts each X row
exactly once and pass 2 additionally counts each reassigned row once
without decrementing its pass-1 status, so the counter's values sum to
`|X|` plus the number of pass-2 reassignments. -/
theorem c6_amended (x_records y_records : PTable) (cfg : MatcherSetup)
    (req dup : Q) (g : YtoX)
    (h0 : (x_records.isEmpty && y_records.isEmpty) = false)
    (h1 : y2xOf x_records y_records cfg req = some g) :
    (pyMatch x_records y_records cfg req dup).summaryTotal
      = some (x_records.length + reassignCount dup g) := by
  unfold y2xOf pass1Result at h1
  cases hxu : x_uniqueness_of x_records with
  | none => rw [hxu] at h1; exact absurd h1 (by simp)
  | some xu =>
      rw [hxu] at h1
      dsimp only at h1
      cases hp : pass1 y_records cfg req xu x_records ⟨x_records, summaryInit, [], 0⟩ with
      | error k => rw [hp] at h1; exact absurd h1 (by simp)
      | ok st =>
          rw [hp] at h1
          simp only [Option.map, Option.some.injEq] at h1
          subst h1
          unfold pyMatch
          rw [h0]
          simp only [Bool.false_eq_true, if_false, hxu, hp]
          simp only [MatchResult.summaryTotal, Option.some.injEq]
          have ht := (pass1_stats y_records cfg req xu x_records _ _ hp).1
          have h2 := pass2_total dup cfg.columns_to_get st.y2x (st.heap, st.summary)
          dsimp only at h2 ht
          rw [h2, ht]
          simp [summaryInit, Summary.total]

/-- C6 (witness): the amended theorem applied at the C6 inputs, where the
single Y group of size two is entirely marked duplicate, so the counter
total is `2 + 2`. -/
theorem c6_amended_witness :
    (pyMatch c6X c6Y c6Cfg ⟨75, 1⟩ ⟨3, 1⟩).summaryTotal
      = some (c6X.length +
          reassignCount ⟨3, 1⟩ [(0, [(0, ⟨6400, 64⟩), (1, ⟨6400, 64⟩)])]) :=
  c6_amended c6X c6Y c6Cfg ⟨75, 1⟩ ⟨3, 1⟩
    [(0, [(0, ⟨6400, 64⟩), (1, ⟨6400, 64⟩)])] (by decide) (by decide)

/-- C7 (spec scenario S1): with scorer `exact_match`, thresholds 100,
cutoffs false, `required_threshold = 0` and empty `columns_to_get` /
`columns_to_group`, on `X = {0:{a:12,b:34}}` and
`Y = {0:{a:12,b:34}, 1:{a:12,b:35}}` the engine computes weights
`{a: 1/2, b: 1/2}`, composite scores 100 for y0 and 50 for y1, yields
`matches = [(0, 100)]` with optimal threshold 100, and annotates X row 0
with status `REVIEW`. -/
theorem c7_scenario_s1 :
    records_match c7X c7Y c7Cfg ⟨0, 1⟩ = some [(0, c7Detail)] ∧
    c7Detail.u_adjusted.map (fun p => p.1) = ["a", "b"] ∧
    qBeq (lookupQ c7Detail.u_adjusted "a" ⟨0, 1⟩) ⟨1, 2⟩ = true ∧
    qBeq (lookupQ c7Detail.u_adjusted "b" ⟨0, 1⟩) ⟨1, 2⟩ = true ∧
    c7Detail.acc.map (fun p => p.1) = [0, 1] ∧
    qBeq (lookupNQ c7Detail.acc 0 ⟨0, 1⟩) ⟨100, 1⟩ = true ∧
    qBeq (lookupNQ c7Detail.acc 1 ⟨0, 1⟩) ⟨50, 1⟩ = true ∧
    c7Detail.y_matches.map (fun p => p.1) = [0] ∧
    qBeq (lookupNQ c7Detail.y_matches 0 ⟨0, 1⟩) ⟨100, 1⟩ = true ∧
    qBeq c7Detail.optimal ⟨100, 1⟩ = true ∧
    (pyMatch c7X c7Y c7Cfg ⟨0, 1⟩ ⟨3, 1⟩).cellAt 0 match_status_col
        = some (PVal.vstr "REVIEW") := by decide

/-- C8 (counterexample): assigning `columns_to_get[y] = dest` with a `y`
that is not a Y column does NOT fail with `ColumnNotFound`; the assignment
is silently ignored and the map is returned unchanged. -/
theorem c8_counterexample :
    columnsToGetSetItem ["b"] ["a"] false [("b", "c")] "zz" "d"
        = Except.ok [("b", "c")] ∧
    columnsToGetSetItem ["b"] ["a"] false [("b", "c")] "zz" "d"
        ≠ Except.error CfgError.columnNotFound := by decide

/-- C8 (amended): assigning `columns_to_get[y] = dest` silently leaves the
map unchanged when `y` is not a Y column; when `y` is a Y column it fails
with `OverwriteError` if `allow_overwrite` is false and `dest` is an
existing X column, otherwise fails with `XUniqueConstraint` if `dest`
already appears as a value of the map, and otherwise stores the pair; on
every failure the map is unchanged (the error carries no new map). -/
theorem c8_amended (yCols xCols : List String) (ao : Bool)
    (m : List (String × String)) (y x : String) :
    (y ∉ yCols → columnsToGetSetItem yCols xCols ao m y x = Except.ok m) ∧
    (y ∈ yCols → ao = false → x ∈ xCols →
      columnsToGetSetItem yCols xCols ao m y x = Except.error CfgError.overwriteError) ∧
    (y ∈ yCols → (ao = true ∨ x ∉ xCols) → x ∈ m.map (fun p => p.2) →
      columnsToGetSetItem yCols xCols ao m y x = Except.error CfgError.xUniqueConstraint) ∧
    (y ∈ yCols → (ao = true ∨ x ∉ xCols) → x ∉ m.map (fun p => p.2) →
      columnsToGetSetItem yCols xCols ao m y x = Except.ok (dictSetS m y x)) := by
  refine ⟨fun hy => ?_, fun hy hao hx => ?_, fun hy hor hx => ?_, fun hy hor hx => ?_⟩
  · simp [columnsToGetSetItem, hy]
  · subst hao
    simp [columnsToGetSetItem, hy, hx]
  · rcases hor with hao | hxc
    · subst hao
      simp [columnsToGetSetItem, hy, hx]
    · cases ao
      · simp [columnsToGetSetItem, hy, hxc, hx]
      · simp [columnsToGetSetItem, hy, hx]
  · rcases hor with hao | hxc
    · subst hao
      simp [columnsToGetSetItem, hy, hx]
    · cases ao
      · simp [columnsToGetSetItem, hy, hxc, hx]
      · simp [columnsToGetSetItem, hy, hx]

/-- C8 (witness): the amended theorem applied at a concrete accepted
assignment. -/
theorem c8_amended_witness :
    columnsToGetSetItem ["b"] ["a"] false [] "b" "c"
        = Except.ok (dictSetS [] "b" "c") :=
  (c8_amended ["b"] ["a"] false [] "b" "c").2.2.2 (by decide)
    (Or.inr (by decide)) (by decide)

/-- C9 (counterexample): starting from a fresh configuration, assign an
EMPTY X table (caching the empty X column set), then a Y table with column
`b`, then `columns_to_get["b"] = "c"` (accepted).  Re-assigning `x_records`
to a table with column set `{a}` — which differs from the cached empty
set — does NOT clear the six sub-maps, because the emptiness of the cached
set is falsy and takes the no-reset branch. -/
theorem c9_counterexample :
    RMConfig.columnsToGetSet c9cfg2 "b" "c" = Except.ok c9cfg3 ∧
    c9cfg3.x_columns = some [] ∧
    setEqS [] (column_names c9XT2) = false ∧
    (RMConfig.setXRecords c9cfg3 c9XT2).columns_to_get = [("b", "c")] ∧
    ¬ (RMConfig.setXRecords c9cfg3 c9XT2).subMapsCleared := by decide

/-- C9 (amended): when the cached previous column set is NON-EMPTY,
replacing `x_records` (resp. `y_records`) with a table whose column set
differs clears all six sub-maps, and replacing it with a table whose
column set is equal leaves all six sub-maps unchanged; when the cached
set is empty the setter never clears. -/
theorem c9_amended (cfg cfg2 : RMConfig) (t t2 : PTable)
    (prev prev2 : List String)
    (hx : cfg.x_columns = some prev) (hne : prev.isEmpty = false)
    (hy : cfg2.y_columns = some prev2) (hne2 : prev2.isEmpty = false) :
    ((setEqS prev (column_names t) = false →
        (RMConfig.setXRecords cfg t).subMapsCleared) ∧
     (setEqS prev (column_names t) = true →
        RMConfig.subMapsEq (RMConfig.setXRecords cfg t) cfg)) ∧
    ((setEqS prev2 (column_names t2) = false →
        (RMConfig.setYRecords cfg2 t2).subMapsCleared) ∧
     (setEqS prev2 (column_names t2) = true →
        RMConfig.subMapsEq (RMConfig.setYRecords cfg2 t2) cfg2)) := by
  constructor
  · constructor <;> intro hcase <;>
      simp [RMConfig.setXRecords, hx, hne, hcase, RMConfig.reset,
        RMConfig.subMapsCleared, RMConfig.subMapsEq]
  · constructor <;> intro hcase <;>
      simp [RMConfig.setYRecords, hy, hne2, hcase, RMConfig.reset,
        RMConfig.subMapsCleared, RMConfig.subMapsEq]

/-- C9 (witness): the amended theorem applied at a configuration with
cached non-empty X column set `{a}` and a populated `columns_to_get`,
re-assigned to a table with the differing column set `{z}`: all six
sub-maps are cleared. -/
theorem c9_amended_witness : (RMConfig.setXRecords c9wCfg c9wT).subMapsCleared :=
  (c9_amended c9wCfg c9wCfg c9wT c9wT ["a"] ["b"] rfl rfl rfl rfl).1.1 (by decide)

/-- C10: when both input tables are empty, `TabularMatcher.match` takes
the early `return`: it returns `None` — not a pair of an empty annotated
table and an empty counter — and the progress callback is never invoked. -/
theorem c10_both_empty (cfg : MatcherSetup) (req dup : Q) :
    pyMatch [] [] cfg req dup = MatchResult.noneEarly ∧
    (pyMatch [] [] cfg req dup).callbackCount = 0 ∧
    (pyMatch [] [] cfg req dup).returnsPair = false :=
  ⟨rfl, rfl, rfl⟩
